import Mathlib

/-!
Verification of the Option-Critic trainer
(`Algorithms/option_critic/option_critic.py`).

The numeric code is modelled shallowly: machine floats are modelled as
rationals (`ℚ`) wherever the program only adds, subtracts, multiplies,
divides, compares and takes min/max, and as reals (`ℝ`) for the
exponential epsilon-decay schedule (`update_epsilon`, which calls
`math.exp`).  Tensors indexed by the batch or by the option axis are
modelled as lists; external collaborators (the environment, the
neural-network heads, replay sampling, the optimizer's gradient step)
are abstract functions supplied in a configuration record, since the
spec declares them external capabilities.
-/

/- ------------------------------------------------------------------
   `sac_update` (option_critic.py lines 133-198): the per-batch-element
   numeric quantities.  Each batch element carries the collaborator
   outputs that `sac_update` consumes for that element: the stored
   reward and terminal flag, the current option's termination
   probability at `next_obs` (line 154), and the two target critics'
   rows `Q1'(next_state)`, `Q2'(next_state)` over options
   (lines 156, 164).
   ------------------------------------------------------------------ -/

structure SacBatchElem where
  reward : ℚ
  done : Bool
  termProb : ℚ
  nextQ1row : List ℚ
  nextQ2row : List ℚ
  option : ℕ

/-- 0/1 value of the stored `done` flag (a 0.0/1.0 float tensor in the
replay batch). -/
def doneInd (d : Bool) : ℚ := if d then 1 else 0

/-- `row.max(dim=-1).values` over the option axis of one row. -/
def listMax : List ℚ → ℚ
  | [] => 0
  | x :: xs => xs.foldl max x

/-- Line 157: `next_V1_omega = next_Q1.max(dim=-1).values`. -/
def next_V1_omega (e : SacBatchElem) : ℚ := listMax e.nextQ1row

/-- Line 158: `next_Q1_omega = next_Q1[batch_idx, options]`. -/
def next_Q1_omega (e : SacBatchElem) : ℚ := e.nextQ1row.getD e.option 0

/-- Line 165: `next_V2_omega = next_Q2.max(dim=-1).values`. -/
def next_V2_omega (e : SacBatchElem) : ℚ := listMax e.nextQ2row

/-- Line 166: `next_Q2_omega = next_Q2[batch_idx, options]`. -/
def next_Q2_omega (e : SacBatchElem) : ℚ := e.nextQ2row.getD e.option 0

/-- Lines 160-161: `utility = (1-next_option_term_prob)*next_Q1_omega +
next_option_term_prob*next_V1_omega`. -/
def utility1 (e : SacBatchElem) : ℚ :=
  (1 - e.termProb) * next_Q1_omega e + e.termProb * next_V1_omega e

/-- Line 162: `Q1_u = rewards + (1-done) * self.gamma * utility`. -/
def Q1_u (gamma : ℚ) (e : SacBatchElem) : ℚ :=
  e.reward + (1 - doneInd e.done) * gamma * utility1 e

/-- Lines 168-169: the second critic's utility. -/
def utility2 (e : SacBatchElem) : ℚ :=
  (1 - e.termProb) * next_Q2_omega e + e.termProb * next_V2_omega e

/-- Line 170: `Q2_u = rewards + (1-done) * self.gamma * utility`. -/
def Q2_u (gamma : ℚ) (e : SacBatchElem) : ℚ :=
  e.reward + (1 - doneInd e.done) * gamma * utility2 e

/-- Line 172: `q_pi = torch.min(Q1_u, Q2_u)`. -/
def q_pi (gamma : ℚ) (e : SacBatchElem) : ℚ := min (Q1_u gamma e) (Q2_u gamma e)

/-- Line 176: `next_Q_omega = torch.min(next_Q1_omega, next_Q2_omega)`. -/
def next_Q_omega (e : SacBatchElem) : ℚ := min (next_Q1_omega e) (next_Q2_omega e)

/-- Line 177: `next_V_omega = torch.min(next_V1_omega, next_V2_omega)`. -/
def next_V_omega (e : SacBatchElem) : ℚ := min (next_V1_omega e) (next_V2_omega e)

/-- `tensor.detach()`: identical values, merely stops gradient flow, so
on values it is the identity. -/
def detach (x : ℚ) : ℚ := x

/-- Line 178: `adv = (next_Q_omega - next_V_omega + self.termination_reg)`.
The regulariser is added inside the parentheses, i.e. before `.detach()`
is applied to `adv` on line 180. -/
def adv (treg : ℚ) (e : SacBatchElem) : ℚ := next_Q_omega e - next_V_omega e + treg

/-- `tensor.mean()` over a batch axis. -/
def listMeanQ (l : List ℚ) : ℚ := l.sum / l.length

/-- Line 180: `termination_loss =
(next_option_term_prob * adv.detach() * (1 - done)).mean()`. -/
def termination_loss (treg : ℚ) (batch : List SacBatchElem) : ℚ :=
  listMeanQ (batch.map fun e => e.termProb * detach (adv treg e) * (1 - doneInd e.done))

/-- The termination loss as the spec phrases it: the mean over the batch
of `beta(next_obs, option) * detach(adv) * (1 - terminal)` with
`adv = min(Q1_omega, Q2_omega) - min(V1_omega, V2_omega) + termination_reg`,
the constant added before detaching. -/
def termination_loss_claim (treg : ℚ) (batch : List SacBatchElem) : ℚ :=
  listMeanQ (batch.map fun e =>
    e.termProb *
      detach (min (next_Q1_omega e) (next_Q2_omega e) -
        min (next_V1_omega e) (next_V2_omega e) + treg) *
      (1 - doneInd e.done))

/-- C4: in `sac_update`, for every batch element the combined target
`q_pi` equals the elementwise minimum of the two per-critic bootstrap
targets `Q1_u` and `Q2_u`, hence `q_pi ≤ Q1_u` and `q_pi ≤ Q2_u`
elementwise for any batch. -/
theorem sac_update_double_q_min (gamma : ℚ) (e : SacBatchElem) :
    q_pi gamma e = min (Q1_u gamma e) (Q2_u gamma e) ∧
    q_pi gamma e ≤ Q1_u gamma e ∧ q_pi gamma e ≤ Q2_u gamma e :=
  ⟨rfl, min_le_left _ _, min_le_right _ _⟩

/-- C5: in `sac_update`, for every batch, the termination loss equals
the mean over the batch of `beta(next_obs, option) * detach(adv) *
(1 - terminal)` where `adv = min(Q1_omega, Q2_omega) -
min(V1_omega, V2_omega) + termination_reg`, the regularisation constant
being added before the advantage is detached. -/
theorem sac_update_termination_loss_spec (treg : ℚ) (batch : List SacBatchElem) :
    termination_loss treg batch = termination_loss_claim treg batch ∧
    termination_loss treg batch =
      (batch.map fun e =>
        e.termProb * (next_Q_omega e - next_V_omega e + treg) * (1 - doneInd e.done)).sum /
        batch.length := by
  constructor
  · rfl
  · simp [termination_loss, listMeanQ, detach, adv]

/- ------------------------------------------------------------------
   `update_epsilon` (lines 274-276):
     eps = self.eps_end + (self.eps_start - self.eps_end) *
             exp(-timestep / self.eps_decay)
     return eps
   The incoming `eps` argument is overwritten without being read.
   ------------------------------------------------------------------ -/

/-- Lines 274-276.  The `eps` parameter mirrors the method's (ignored)
first argument. -/
noncomputable def update_epsilon (epsStart epsEnd epsDecay eps t : ℝ) : ℝ :=
  epsEnd + (epsStart - epsEnd) * Real.exp (-t / epsDecay)

/-- C2: for all configured values with `eps_start ≥ eps_end ≥ 0` and
`eps_decay > 0`, and every timestep `t ≥ 0`, `update_epsilon` returns
exactly `eps_end + (eps_start - eps_end) * exp(-t/eps_decay)`,
independently of the previous epsilon passed in; the result is
`eps_start` at `t = 0`, always lies in `[eps_end, eps_start]`, is
monotonically non-increasing in `t`, and tends to `eps_end` as
`t → ∞`. -/
theorem update_epsilon_schedule (epsStart epsEnd epsDecay : ℝ)
    (hse : epsStart ≥ epsEnd) (he0 : epsEnd ≥ 0) (hd : epsDecay > 0) :
    (∀ e₁ e₂ t : ℝ, update_epsilon epsStart epsEnd epsDecay e₁ t =
        update_epsilon epsStart epsEnd epsDecay e₂ t) ∧
    (∀ e t : ℝ, update_epsilon epsStart epsEnd epsDecay e t =
        epsEnd + (epsStart - epsEnd) * Real.exp (-t / epsDecay)) ∧
    (∀ e : ℝ, update_epsilon epsStart epsEnd epsDecay e 0 = epsStart) ∧
    (∀ e t : ℝ, 0 ≤ t →
        epsEnd ≤ update_epsilon epsStart epsEnd epsDecay e t ∧
        update_epsilon epsStart epsEnd epsDecay e t ≤ epsStart) ∧
    (∀ e t₁ t₂ : ℝ, t₁ ≤ t₂ →
        update_epsilon epsStart epsEnd epsDecay e t₂ ≤
          update_epsilon epsStart epsEnd epsDecay e t₁) ∧
    Filter.Tendsto (fun t => update_epsilon epsStart epsEnd epsDecay 0 t)
      Filter.atTop (nhds epsEnd) := by
  have hcoef : 0 ≤ epsStart - epsEnd := by linarith
  refine ⟨fun _ _ _ => rfl, fun _ _ => rfl, ?_, ?_, ?_, ?_⟩
  · intro e
    simp [update_epsilon]
  · intro e t ht
    have hpos : 0 < Real.exp (-t / epsDecay) := Real.exp_pos _
    have hle1 : Real.exp (-t / epsDecay) ≤ 1 := by
      rw [← Real.exp_zero]
      apply Real.exp_le_exp.mpr
      exact div_nonpos_iff.mpr (Or.inr ⟨by linarith, hd.le⟩)
    constructor
    · have : 0 ≤ (epsStart - epsEnd) * Real.exp (-t / epsDecay) :=
        mul_nonneg hcoef hpos.le
      unfold update_epsilon
      linarith
    · have : (epsStart - epsEnd) * Real.exp (-t / epsDecay) ≤ (epsStart - epsEnd) * 1 :=
        mul_le_mul_of_nonneg_left hle1 hcoef
      unfold update_epsilon
      linarith
  · intro e t₁ t₂ h12
    have harg : -t₂ / epsDecay ≤ -t₁ / epsDecay :=
      (div_le_div_right hd).mpr (by linarith)
    have hexp : Real.exp (-t₂ / epsDecay) ≤ Real.exp (-t₁ / epsDecay) :=
      Real.exp_le_exp.mpr harg
    have := mul_le_mul_of_nonneg_left hexp hcoef
    unfold update_epsilon
    linarith
  · have h1 : Filter.Tendsto (fun t : ℝ => t / epsDecay) Filter.atTop Filter.atTop :=
      Filter.tendsto_id.atTop_div_const hd
    have h2 : Filter.Tendsto (fun t : ℝ => -(t / epsDecay)) Filter.atTop Filter.atBot :=
      Filter.tendsto_neg_atTop_atBot.comp h1
    have h3 : Filter.Tendsto (fun t : ℝ => Real.exp (-(t / epsDecay)))
        Filter.atTop (nhds 0) := Real.tendsto_exp_atBot.comp h2
    have h4 : Filter.Tendsto
        (fun t : ℝ => epsEnd + (epsStart - epsEnd) * Real.exp (-(t / epsDecay)))
        Filter.atTop (nhds (epsEnd + (epsStart - epsEnd) * 0)) :=
      (h3.const_mul (epsStart - epsEnd)).const_add epsEnd
    have h5 : Filter.Tendsto
        (fun t : ℝ => epsEnd + (epsStart - epsEnd) * Real.exp (-(t / epsDecay)))
        Filter.atTop (nhds epsEnd) := by
      simpa using h4
    have heq : (fun t : ℝ => update_epsilon epsStart epsEnd epsDecay 0 t) =
        fun t : ℝ => epsEnd + (epsStart - epsEnd) * Real.exp (-(t / epsDecay)) := by
      funext t
      rw [update_epsilon, neg_div]
    rw [heq]
    exact h5

/- ------------------------------------------------------------------
   `update_target_network` (lines 125-131): for every pair
   `(p, p_targ)` from `zip(self.oc.parameters(), self.oc_targ.parameters())`
   the in-place update
     p_targ.data.mul_(self.polyak); p_targ.data.add_((1 - self.polyak) * p.data)
   i.e. `p_targ := polyak * p_targ + (1 - polyak) * p`.
   A parameter tensor is modelled as one rational entry and the two
   parameter lists as lists of entries of equal length.
   ------------------------------------------------------------------ -/

/-- Lines 125-131: one polyak step over the zipped parameter lists. -/
def update_target_network (polyak : ℚ) (ps ptargs : List ℚ) : List ℚ :=
  List.zipWith (fun p pt => polyak * pt + (1 - polyak) * p) ps ptargs

lemma update_target_network_getD (polyak : ℚ) :
    ∀ (ps ptargs : List ℚ) (i : ℕ), i < ps.length → i < ptargs.length →
      (update_target_network polyak ps ptargs).getD i 0 =
        polyak * ptargs.getD i 0 + (1 - polyak) * ps.getD i 0 := by
  intro ps
  induction ps with
  | nil => intro ptargs i h1 _; exact absurd h1 (by simp)
  | cons p ps ih =>
    intro ptargs i h1 h2
    cases ptargs with
    | nil => exact absurd h2 (by simp)
    | cons pt pts =>
      cases i with
      | zero => rfl
      | succ j =>
        have h1' : j < ps.length := by simpa using h1
        have h2' : j < pts.length := by simpa using h2
        simpa [update_target_network] using ih pts j h1' h2'

lemma update_target_network_one :
    ∀ ps ptargs : List ℚ, ps.length = ptargs.length →
      update_target_network 1 ps ptargs = ptargs := by
  intro ps
  induction ps with
  | nil =>
    intro ptargs h
    cases ptargs with
    | nil => rfl
    | cons pt pts => simp at h
  | cons p ps ih =>
    intro ptargs h
    cases ptargs with
    | nil => simp at h
    | cons pt pts =>
      have h' : ps.length = pts.length := by simpa using h
      simp [update_target_network] at ih ⊢
      exact ih pts h'

lemma update_target_network_zero :
    ∀ ps ptargs : List ℚ, ps.length = ptargs.length →
      update_target_network 0 ps ptargs = ps := by
  intro ps
  induction ps with
  | nil => intro ptargs _; rfl
  | cons p ps ih =>
    intro ptargs h
    cases ptargs with
    | nil => simp at h
    | cons pt pts =>
      have h' : ps.length = pts.length := by simpa using h
      simp [update_target_network] at ih ⊢
      exact ih pts h'

/-- C3: one call to `update_target_network` maps every target parameter
`p_targ` to `polyak * p_targ + (1 - polyak) * p` elementwise for its
paired model parameter `p`; with `polyak = 1` the update is the
identity, and with `polyak = 0` one update makes each target parameter
an exact copy of the model parameter. -/
theorem update_target_network_polyak (polyak : ℚ) (ps ptargs : List ℚ)
    (hlen : ps.length = ptargs.length) :
    (∀ i : ℕ, i < ptargs.length →
      (update_target_network polyak ps ptargs).getD i 0 =
        polyak * ptargs.getD i 0 + (1 - polyak) * ps.getD i 0) ∧
    (polyak = 1 → update_target_network polyak ps ptargs = ptargs) ∧
    (polyak = 0 → update_target_network polyak ps ptargs = ps) := by
  refine ⟨fun i hi => update_target_network_getD polyak ps ptargs i (hlen ▸ hi) hi, ?_, ?_⟩
  · rintro rfl
    exact update_target_network_one ps ptargs hlen
  · rintro rfl
    exact update_target_network_zero ps ptargs hlen

/-- Concrete instance of `update_target_network_polyak`: parameter lists
`[1, 2]` and `[10, 20]` with `polyak = 1`. -/
theorem update_target_network_polyak_witness :
    ([(1 : ℚ), 2].length = [(10 : ℚ), 20].length) ∧
    ((∀ i : ℕ, i < [(10 : ℚ), 20].length →
      (update_target_network 1 [(1 : ℚ), 2] [(10 : ℚ), 20]).getD i 0 =
        1 * List.getD [(10 : ℚ), 20] i 0 + (1 - 1) * List.getD [(1 : ℚ), 2] i 0) ∧
    ((1 : ℚ) = 1 → update_target_network 1 [(1 : ℚ), 2] [(10 : ℚ), 20] = [(10 : ℚ), 20]) ∧
    ((1 : ℚ) = 0 → update_target_network 1 [(1 : ℚ), 2] [(10 : ℚ), 20] = [(1 : ℚ), 2])) :=
  ⟨rfl, update_target_network_polyak 1 [(1 : ℚ), 2] [(10 : ℚ), 20] rfl⟩

/-- Concrete instance of `update_epsilon_schedule` at
`eps_start = 1`, `eps_end = 0`, `eps_decay = 1`. -/
theorem update_epsilon_schedule_witness :
    (1 : ℝ) ≥ 0 ∧ (0 : ℝ) ≥ 0 ∧ (1 : ℝ) > 0 ∧
    update_epsilon 1 0 1 5 1 = update_epsilon 1 0 1 7 1 ∧
    update_epsilon 1 0 1 5 1 = 0 + (1 - 0) * Real.exp (-1 / 1) ∧
    update_epsilon 1 0 1 5 0 = 1 ∧
    (0 ≤ update_epsilon 1 0 1 5 1 ∧ update_epsilon 1 0 1 5 1 ≤ 1) ∧
    update_epsilon 1 0 1 5 1 ≤ update_epsilon 1 0 1 5 0 ∧
    Filter.Tendsto (fun t => update_epsilon 1 0 1 0 t) Filter.atTop (nhds 0) := by
  have h := update_epsilon_schedule 1 0 1 zero_le_one (le_refl 0) one_pos
  exact ⟨zero_le_one, le_refl 0, one_pos, h.1 5 7 1, h.2.1 5 1, h.2.2.1 5,
    h.2.2.2.1 5 1 zero_le_one, h.2.2.2.2.1 5 0 1 zero_le_one, h.2.2.2.2.2⟩

/- ------------------------------------------------------------------
   Trainer state and its parameter/bookkeeping-mutating operations
   (`__init__` lines 76-103, `reinit_network` lines 105-123,
   `update_target_network` lines 125-131, the optimizer step inside
   `sac_update` lines 189-192, `load_weights` lines 244-272 and the
   best-reward update in `learn_one_trial` lines 329-337).
   Each network's parameter set is modelled as a list of rational
   entries; the optimizer's gradient step is an arbitrary function of
   the parameters it was constructed over, which on lines 89 and 123 is
   always `self.oc.parameters()` (the Model only).
   ------------------------------------------------------------------ -/

/-- Modelled from the spec: `Algorithms/option_critic/replay_buffer.py`
is not part of the sources; the spec describes the Replay Store as an
"append-only ring buffer of transitions" with capacity `replay_size`,
"oldest evicted when capacity exceeded", freshly created empty
(`size()` resets to 0 on reinit). -/
structure ReplayBufferM (T : Type) where
  capacity : ℕ
  data : List T

/-- Modelled from the spec: a fresh Replay Store of the given capacity. -/
def ReplayBufferM.create (T : Type) (cap : ℕ) : ReplayBufferM T :=
  ⟨cap, []⟩

/-- Modelled from the spec: `size()` is the number of stored transitions. -/
def ReplayBufferM.size {T : Type} (b : ReplayBufferM T) : ℕ := b.data.length

/-- Modelled from the spec: `append` adds the newest transition, evicting
the oldest when the capacity is exceeded. -/
def ReplayBufferM.push {T : Type} (b : ReplayBufferM T) (x : T) : ReplayBufferM T :=
  let d := b.data ++ [x]
  ⟨b.capacity, if b.capacity < d.length then d.drop (d.length - b.capacity) else d⟩

/-- `-np.inf` and the rational rewards it is compared against
(line 103/111: `self.best_mean_reward = -np.inf`). -/
abbrev BestReward := WithBot ℚ

/-- Lines 329-336: `if mean_reward > self.best_mean_reward:
self.best_mean_reward = mean_reward`. -/
def updateBest (best : BestReward) (mean : ℚ) : BestReward :=
  if best < (mean : BestReward) then (mean : BestReward) else best

/-- The mutable trainer fields touched by the parameter-handling
operations.  `T` is the stored transition type. -/
structure TrainerState (T : Type) where
  ocParams : List ℚ
  ocTargParams : List ℚ
  targRequiresGrad : Bool
  bestMeanReward : BestReward
  replay : ReplayBufferM T

/-- The trainer operations that can touch parameters or the
bookkeeping fields. -/
inductive TrainerOp (T : Type) where
  /-- `reinit_network` (lines 105-123, same shape as `__init__`
  lines 76-103): fresh Model parameters, Target deep-copied from the
  Model then frozen, fresh replay buffer, optimizer re-constructed over
  `self.oc.parameters()`, `best_mean_reward = -np.inf`. -/
  | reinit (fresh : List ℚ)
  /-- `self.optimizer.step()` (line 192): the optimizer was constructed
  over `self.oc.parameters()` only (lines 89, 123), so its step is some
  function of the Model parameters alone. -/
  | optStep (g : List ℚ → List ℚ)
  /-- `update_target_network` (lines 125-131). -/
  | polyakStep (polyak : ℚ)
  /-- `load_weights` (lines 244-272): overwrites Model, Target Model and
  (when `load_buffer`) the replay buffer contents from the checkpoint. -/
  | loadCk (loadBuffer : Bool) (bufData : List T) (ckOc ckTarg : List ℚ)
  /-- The episode-end best-reward update (lines 329-336). -/
  | recordEpisode (mean : ℚ)

/-- Effect of each operation on the trainer fields, following the
source lines cited on the constructors. -/
def applyOp {T : Type} (s : TrainerState T) : TrainerOp T → TrainerState T
  | .reinit fresh =>
      { ocParams := fresh
        ocTargParams := fresh
        targRequiresGrad := false
        bestMeanReward := ⊥
        replay := ReplayBufferM.create T s.replay.capacity }
  | .optStep g => { s with ocParams := g s.ocParams }
  | .polyakStep polyak =>
      { s with ocTargParams := update_target_network polyak s.ocParams s.ocTargParams }
  | .loadCk loadBuffer bufData ckOc ckTarg =>
      { s with
        ocParams := ckOc
        ocTargParams := ckTarg
        replay := if loadBuffer then ⟨s.replay.capacity, bufData⟩ else s.replay }
  | .recordEpisode mean => { s with bestMeanReward := updateBest s.bestMeanReward mean }

/-- C6 counterexample: it is not true that the polyak-averaging update
is the only operation that writes the target parameters —
`load_weights` (lines 262) also overwrites them, at the concrete state
with `ocTargParams = [0]` and a checkpoint carrying `ckTarg = [7]`. -/
theorem optimizer_never_writes_target_counterexample :
    ¬ (∀ (s : TrainerState ℕ) (op : TrainerOp ℕ),
        (applyOp s op).ocTargParams ≠ s.ocTargParams →
          ∃ polyak, op = TrainerOp.polyakStep polyak) := by
  intro h
  have hne : (applyOp (⟨[0], [0], false, ⊥, ⟨10, []⟩⟩ : TrainerState ℕ)
      (TrainerOp.loadCk false [] [5] [7])).ocTargParams ≠ [(0 : ℚ)] := by
    simp [applyOp]
  rcases h ⟨[0], [0], false, ⊥, ⟨10, []⟩⟩ (TrainerOp.loadCk false [] [5] [7]) hne with ⟨p, hp⟩
  cases hp

/-- C6 (amended): target parameters are never written by the gradient
optimizer — the optimizer step, being constructed over the Model's
parameters only, rewrites `ocParams` and leaves `ocTargParams`
untouched; the target parameters are frozen at construction and at
every reinit; and the only operations that write target parameters are
the polyak-averaging update, network (re)initialisation (which replaces
them by a fresh copy of the Model) and checkpoint loading. -/
theorem optimizer_never_writes_target (T : Type) (s : TrainerState T)
    (g : List ℚ → List ℚ) (fresh : List ℚ) (polyak : ℚ) (op : TrainerOp T) :
    (applyOp s (.optStep g)).ocTargParams = s.ocTargParams ∧
    (applyOp s (.optStep g)).ocParams = g s.ocParams ∧
    (applyOp s (.reinit fresh)).targRequiresGrad = false ∧
    (applyOp s (.polyakStep polyak)).ocTargParams =
      update_target_network polyak s.ocParams s.ocTargParams ∧
    ((applyOp s op).ocTargParams ≠ s.ocTargParams →
      (∃ p, op = TrainerOp.polyakStep p) ∨
      (∃ f, op = TrainerOp.reinit f) ∨
      (∃ lb bd cko ckt, op = TrainerOp.loadCk lb bd cko ckt)) := by
  refine ⟨rfl, rfl, rfl, rfl, ?_⟩
  intro hne
  cases op with
  | reinit fresh => exact Or.inr (Or.inl ⟨fresh, rfl⟩)
  | optStep g => exact absurd rfl hne
  | polyakStep p => exact Or.inl ⟨p, rfl⟩
  | loadCk lb bd cko ckt => exact Or.inr (Or.inr ⟨lb, bd, cko, ckt, rfl⟩)
  | recordEpisode m => exact absurd rfl hne

/-- Concrete instance of `optimizer_never_writes_target` at a
`loadCk` operation whose checkpoint changes the target parameters. -/
theorem optimizer_never_writes_target_witness :
    (applyOp (⟨[0], [0], false, ⊥, ⟨10, []⟩⟩ : TrainerState ℕ)
        (.optStep (fun ps => ps ++ [1]))).ocTargParams = [(0 : ℚ)] ∧
    (applyOp (⟨[0], [0], false, ⊥, ⟨10, []⟩⟩ : TrainerState ℕ)
        (.optStep (fun ps => ps ++ [1]))).ocParams = (fun ps => ps ++ [1]) [(0 : ℚ)] ∧
    (applyOp (⟨[0], [0], false, ⊥, ⟨10, []⟩⟩ : TrainerState ℕ)
        (.reinit [2])).targRequiresGrad = false ∧
    (applyOp (⟨[0], [0], false, ⊥, ⟨10, []⟩⟩ : TrainerState ℕ)
        (.polyakStep (1 / 2))).ocTargParams =
      update_target_network (1 / 2) [(0 : ℚ)] [(0 : ℚ)] ∧
    ((applyOp (⟨[0], [0], false, ⊥, ⟨10, []⟩⟩ : TrainerState ℕ)
        (TrainerOp.loadCk false [] [5] [7])).ocTargParams ≠ [(0 : ℚ)] →
      (∃ p, TrainerOp.loadCk false [] [5] [7] = TrainerOp.polyakStep (T := ℕ) p) ∨
      (∃ f, TrainerOp.loadCk false [] [5] [7] = TrainerOp.reinit (T := ℕ) f) ∨
      (∃ lb bd cko ckt, TrainerOp.loadCk false [] [5] [7] =
        TrainerOp.loadCk (T := ℕ) lb bd cko ckt)) :=
  optimizer_never_writes_target ℕ ⟨[0], [0], false, ⊥, ⟨10, []⟩⟩
    (fun ps => ps ++ [1]) [2] (1 / 2) (TrainerOp.loadCk false [] [5] [7])

/-- C7: after `reinit_network()` the best mean reward is `-inf` and the
replay store is freshly created with `size() = 0`; between reinits the
best mean reward is only ever overwritten by a strictly larger mean
reward (so it is monotonically non-decreasing), and no other operation
touches it. -/
theorem reinit_resets_best_and_replay (T : Type) (s : TrainerState T)
    (fresh : List ℚ) (g : List ℚ → List ℚ) (polyak : ℚ) (lb : Bool) (bd : List T)
    (cko ckt : List ℚ) (b : BestReward) (m : ℚ) :
    (applyOp s (.reinit fresh)).bestMeanReward = ⊥ ∧
    (applyOp s (.reinit fresh)).replay.size = 0 ∧
    b ≤ updateBest b m ∧
    (updateBest b m ≠ b → b < (m : BestReward) ∧ updateBest b m = (m : BestReward)) ∧
    (applyOp s (.recordEpisode m)).bestMeanReward = updateBest s.bestMeanReward m ∧
    (applyOp s (.optStep g)).bestMeanReward = s.bestMeanReward ∧
    (applyOp s (.polyakStep polyak)).bestMeanReward = s.bestMeanReward ∧
    (applyOp s (.loadCk lb bd cko ckt)).bestMeanReward = s.bestMeanReward := by
  refine ⟨rfl, rfl, ?_, ?_, rfl, rfl, rfl, rfl⟩
  · unfold updateBest
    split
    · exact le_of_lt (by assumption)
    · exact le_refl b
  · intro hne
    unfold updateBest at hne ⊢
    by_cases h : b < (m : BestReward)
    · exact ⟨h, by simp [h]⟩
    · exact absurd (by simp [h]) hne

/-- Concrete instance of `reinit_resets_best_and_replay` with
`best = -inf` updated by the mean reward `1`. -/
theorem reinit_resets_best_and_replay_witness :
    (applyOp (⟨[3], [4], false, (2 : ℚ), ⟨10, [0]⟩⟩ : TrainerState ℕ)
        (.reinit [8])).bestMeanReward = ⊥ ∧
    (applyOp (⟨[3], [4], false, (2 : ℚ), ⟨10, [0]⟩⟩ : TrainerState ℕ)
        (.reinit [8])).replay.size = 0 ∧
    (⊥ : BestReward) ≤ updateBest ⊥ 1 ∧
    (updateBest ⊥ 1 ≠ ⊥ → (⊥ : BestReward) < (1 : ℚ) ∧ updateBest ⊥ 1 = ((1 : ℚ) : BestReward)) ∧
    (applyOp (⟨[3], [4], false, (2 : ℚ), ⟨10, [0]⟩⟩ : TrainerState ℕ)
        (.recordEpisode 1)).bestMeanReward = updateBest (2 : ℚ) 1 ∧
    (applyOp (⟨[3], [4], false, (2 : ℚ), ⟨10, [0]⟩⟩ : TrainerState ℕ)
        (.optStep id)).bestMeanReward = ((2 : ℚ) : BestReward) ∧
    (applyOp (⟨[3], [4], false, (2 : ℚ), ⟨10, [0]⟩⟩ : TrainerState ℕ)
        (.polyakStep 1)).bestMeanReward = ((2 : ℚ) : BestReward) ∧
    (applyOp (⟨[3], [4], false, (2 : ℚ), ⟨10, [0]⟩⟩ : TrainerState ℕ)
        (.loadCk true [5] [6] [7])).bestMeanReward = ((2 : ℚ) : BestReward) :=
  reinit_resets_best_and_replay ℕ ⟨[3], [4], false, (2 : ℚ), ⟨10, [0]⟩⟩
    [8] id 1 true [5] [6] [7] ⊥ 1

/- ------------------------------------------------------------------
   `load_weights` (lines 244-272).  The file system is modelled as the
   list of paths for which `os.path.isfile` is true; collaborator loads
   (`replay_buffer.load`, `torch.load`, `load_state_dict`, `env.load`)
   are external and succeed on their cited inputs.  The outcome records
   whether the replay buffer was loaded (line 257-258) and whether the
   environment state was loaded (lines 265-268); when `env.json` is
   absent the environment is simply left as it is.
   ------------------------------------------------------------------ -/

structure LoadOutcome where
  bufferLoaded : Bool
  envLoaded : Bool
  deriving DecidableEq

/-- Lines 244-272: choose `best.pth` or `model_weights.pth` under
`save_dir`; raise `OSError` when that file is absent, otherwise load
the checkpoint (and the replay buffer when `load_buffer`), and load
`env.json` only when it is present. -/
def load_weights (files : List String) (saveDir : String)
    (best loadBuffer : Bool) : Except String LoadOutcome :=
  let fname := if best then "best.pth" else "model_weights.pth"
  let checkpointPath := saveDir ++ "/" ++ fname
  if files.contains checkpointPath then
    let envPath := saveDir ++ "/" ++ "env.json"
    .ok ⟨loadBuffer, files.contains envPath⟩
  else
    .error "Checkpoint file not found."

/-- C8: `load_weights` raises (and loads nothing) exactly when the
selected weights file is absent; when the weights file exists but
`env.json` is absent, loading succeeds with the environment state left
untouched. -/
theorem load_weights_errors_iff_missing (files : List String) (saveDir : String)
    (best loadBuffer : Bool) :
    ((load_weights files saveDir best loadBuffer =
        Except.error "Checkpoint file not found.") ↔
      files.contains
        (saveDir ++ "/" ++ (if best then "best.pth" else "model_weights.pth")) = false) ∧
    ((∃ r, load_weights files saveDir best loadBuffer = Except.ok r) ↔
      files.contains
        (saveDir ++ "/" ++ (if best then "best.pth" else "model_weights.pth")) = true) ∧
    (files.contains
        (saveDir ++ "/" ++ (if best then "best.pth" else "model_weights.pth")) = true →
      files.contains (saveDir ++ "/" ++ "env.json") = false →
      load_weights files saveDir best loadBuffer = Except.ok ⟨loadBuffer, false⟩) := by
  by_cases hm : (saveDir ++ "/" ++ (if best then "best.pth" else "model_weights.pth")) ∈ files
  · refine ⟨by simp [load_weights, hm], by simp [load_weights, hm], ?_⟩
    intro _ h2
    have hm2 : (saveDir ++ "/" ++ "env.json") ∉ files := by simpa using h2
    simp [load_weights, hm, hm2]
  · refine ⟨by simp [load_weights, hm], by simp [load_weights, hm], ?_⟩
    intro h1 _
    exact absurd (by simpa using h1) hm

/-- Concrete instance of `load_weights_errors_iff_missing`: save dir
`d` containing only `d/best.pth` (no `d/env.json`). -/
theorem load_weights_errors_iff_missing_witness :
    ((load_weights [ "d/best.pth" ] "d" true true =
        Except.error "Checkpoint file not found.") ↔
      List.contains [ "d/best.pth" ]
        ("d" ++ "/" ++ (if true then "best.pth" else "model_weights.pth")) = false) ∧
    ((∃ r, load_weights [ "d/best.pth" ] "d" true true = Except.ok r) ↔
      List.contains [ "d/best.pth" ]
        ("d" ++ "/" ++ (if true then "best.pth" else "model_weights.pth")) = true) ∧
    (List.contains [ "d/best.pth" ]
        ("d" ++ "/" ++ (if true then "best.pth" else "model_weights.pth")) = true →
      List.contains [ "d/best.pth" ] ("d" ++ "/" ++ "env.json") = false →
      load_weights [ "d/best.pth" ] "d" true true = Except.ok ⟨true, false⟩) :=
  load_weights_errors_iff_missing [ "d/best.pth" ] "d" true true

/- ------------------------------------------------------------------
   `learn_one_trial` (lines 278-344).  One environment interaction per
   timestep, modelled as an explicit state-passing step function.  The
   stochastic collaborator calls (environment, option selection, action
   sampling, termination sampling, replay sampling, the gradient step)
   are abstract deterministic functions carried by a configuration
   record, and the environment's internal state is threaded explicitly.
   ------------------------------------------------------------------ -/

/-- A stored transition (line 307:
`self.replay_buffer.append(obs, current_option, reward, next_obs, done)`). -/
structure Transition (O : Type) where
  obs : O
  option : ℕ
  reward : ℚ
  nextObs : O
  done : Bool

/-- Result of `self.env.step(action)` (line 299). -/
structure EnvOut (O E : Type) where
  obs : O
  reward : ℚ
  done : Bool
  env : E

/-- Result of `self.env.reset()` (lines 281, 322). -/
structure ResetOut (O E : Type) where
  obs : O
  env : E

/-- The trainer configuration and its external collaborators.
`O` observations, `A` actions, `E` environment internals, `W` the
Model/Target/optimizer weights (opaque to the loop claims). -/
structure OCConfig (O A E W : Type) where
  envReset : E → ResetOut O E
  envStep : E → A → EnvOut O E
  getOption : O → ℝ → ℕ
  getAction : O → ℕ → A
  predictTermination : O → ℕ → Bool
  numOptions : ℕ
  maxEpLen : ℕ
  epsStart : ℝ
  epsEnd : ℝ
  epsDecay : ℝ
  batchSize : ℕ
  updateEvery : ℕ
  rewardThreshold : Option ℚ
  sampleBatch : ℕ → List (Transition O) → List (Transition O)
  sacStep : W → List (Transition O) → W
  trialNum : ℕ

/-- The loop variables of `learn_one_trial` (lines 279-344) together
with the trainer fields the loop reads or writes. -/
structure LoopState (O E W : Type) where
  envSt : E
  epsilon : ℝ
  obs : O
  epRet : ℚ
  epLen : ℕ
  currOpLen : ℕ
  optionTermination : Bool
  currentOption : ℕ
  episode : ℕ
  optionLengths : ℕ → List ℕ
  replay : ReplayBufferM (Transition O)
  weights : W
  epRetLog : List ℚ
  epLenLog : List ℕ
  bestMeanReward : BestReward
  checkpointSaves : ℕ
  halted : Bool

/-- Line 304: `done = False if ep_len==self.max_ep_len else done` —
the terminal flag stored for a step-limit truncation is forced to
false, so the bootstrap still occurs for such transitions. -/
def storedDone (maxEpLen epLen : ℕ) (done : Bool) : Bool :=
  if epLen = maxEpLen then false else done

/-- Line 287: `epsilon = self.update_epsilon(epsilon, timestep)`. -/
noncomputable def epsilonAt {O A E W : Type} (cfg : OCConfig O A E W) (t : ℕ)
    (s : LoopState O E W) : ℝ :=
  update_epsilon cfg.epsStart cfg.epsEnd cfg.epsDecay s.epsilon (t : ℝ)

/-- Lines 289-291: the option acted with this step — newly selected by
`self.oc.get_option(to_tensor(obs), epsilon)` when the previous option
just terminated, the continuing option otherwise. -/
noncomputable def selOption {O A E W : Type} (cfg : OCConfig O A E W) (t : ℕ)
    (s : LoopState O E W) : ℕ :=
  if s.optionTermination then cfg.getOption s.obs (epsilonAt cfg t s) else s.currentOption

/-- Line 296: `action = self.oc.get_action(to_tensor(obs), current_option)`. -/
noncomputable def chosenAction {O A E W : Type} (cfg : OCConfig O A E W) (t : ℕ)
    (s : LoopState O E W) : A :=
  cfg.getAction s.obs (selOption cfg t s)

/-- Line 299: `next_obs, reward, done, _ = self.env.step(action)`. -/
noncomputable def stepOut {O A E W : Type} (cfg : OCConfig O A E W) (t : ℕ)
    (s : LoopState O E W) : EnvOut O E :=
  cfg.envStep s.envSt (chosenAction cfg t s)

/-- Line 307: the transition appended to the replay buffer this step,
with the terminal flag already overridden by line 304. -/
noncomputable def storedTransition {O A E W : Type} (cfg : OCConfig O A E W) (t : ℕ)
    (s : LoopState O E W) : Transition O :=
  { obs := s.obs
    option := selOption cfg t s
    reward := (stepOut cfg t s).reward
    nextObs := (stepOut cfg t s).obs
    done := storedDone cfg.maxEpLen (s.epLen + 1) (stepOut cfg t s).done }

/-- Line 319: `if done or (ep_len==self.max_ep_len):` with the
overridden `done` and the incremented `ep_len`. -/
noncomputable def episodeEnds {O A E W : Type} (cfg : OCConfig O A E W) (t : ℕ)
    (s : LoopState O E W) : Bool :=
  storedDone cfg.maxEpLen (s.epLen + 1) (stepOut cfg t s).done ||
    decide (s.epLen + 1 = cfg.maxEpLen)

/-- `y[-50:]` (line 329). -/
def lastN {α : Type} (n : ℕ) (l : List α) : List α := l.drop (l.length - n)

/-- One iteration of the `for timestep in tqdm(range(1, timesteps+1))`
body (lines 286-344); an earlier `return` (line 341) is modelled by the
`halted` flag short-circuiting every later iteration. -/
noncomputable def learnOneStep {O A E W : Type} (cfg : OCConfig O A E W) (t : ℕ)
    (s : LoopState O E W) : LoopState O E W :=
  if s.halted then s else
  let eps := epsilonAt cfg t s
  let opt := selOption cfg t s
  let optionLengths1 :=
    if s.optionTermination then
      Function.update s.optionLengths s.currentOption
        (s.optionLengths s.currentOption ++ [s.currOpLen])
    else s.optionLengths
  let curOpLen1 := if s.optionTermination then 0 else s.currOpLen
  let out := stepOut cfg t s
  let epRet1 := s.epRet + out.reward
  let epLen1 := s.epLen + 1
  let replay1 := s.replay.push (storedTransition cfg t s)
  let obs1 := out.obs
  let term1 := cfg.predictTermination obs1 opt
  let weights1 :=
    if cfg.batchSize ≤ replay1.size ∧ t % cfg.updateEvery = 0 then
      (List.range cfg.updateEvery).foldl
        (fun w i => cfg.sacStep w (cfg.sampleBatch i replay1.data)) s.weights
    else s.weights
  if episodeEnds cfg t s then
    -- Line 322: `state, ep_ret, ep_len = self.env.reset(), 0, 0` — the
    -- reset observation is bound to the dead local `state`; only the
    -- environment internals advance, `obs` keeps the final observation.
    let epRetLog1 := s.epRetLog ++ [epRet1]
    let epLenLog1 := s.epLenLog ++ [epLen1]
    let resetOut := cfg.envReset out.env
    let stats :=
      if 0 < epLenLog1.length then
        let mean := listMeanQ (lastN 50 epRetLog1)
        let best1 := updateBest s.bestMeanReward mean
        let saves1 := s.checkpointSaves +
          (if s.bestMeanReward < (mean : BestReward) then 1 else 0)
        let halted1 :=
          match cfg.rewardThreshold with
          | some th => decide ((th : BestReward) ≤ best1)
          | none => false
        (best1, saves1, halted1)
      else (s.bestMeanReward, s.checkpointSaves, false)
    { envSt := resetOut.env
      epsilon := eps
      obs := obs1
      epRet := 0
      epLen := 0
      currOpLen := curOpLen1
      optionTermination := term1
      currentOption := opt
      episode := s.episode + 1
      optionLengths := fun _ => []
      replay := replay1
      weights := weights1
      epRetLog := epRetLog1
      epLenLog := epLenLog1
      bestMeanReward := stats.1
      checkpointSaves := stats.2.1
      halted := stats.2.2 }
  else
    { envSt := out.env
      epsilon := eps
      obs := obs1
      epRet := epRet1
      epLen := epLen1
      currOpLen := curOpLen1
      optionTermination := term1
      currentOption := opt
      episode := s.episode
      optionLengths := optionLengths1
      replay := replay1
      weights := weights1
      epRetLog := s.epRetLog
      epLenLog := s.epLenLog
      bestMeanReward := s.bestMeanReward
      checkpointSaves := s.checkpointSaves
      halted := false }

/-- Lines 279-284: the loop state at trial start (trainer-owned fields
`replay`, `weights`, `bestMeanReward` persist into the trial). -/
def initLoopState {O A E W : Type} (cfg : OCConfig O A E W) (e0 : E)
    (replay0 : ReplayBufferM (Transition O)) (w0 : W) (best0 : BestReward) :
    LoopState O E W :=
  { envSt := (cfg.envReset e0).env
    epsilon := cfg.epsStart
    obs := (cfg.envReset e0).obs
    epRet := 0
    epLen := 0
    currOpLen := 0
    optionTermination := true
    currentOption := 0
    episode := 0
    optionLengths := fun _ => []
    replay := replay0
    weights := w0
    epRetLog := []
    epLenLog := []
    bestMeanReward := best0
    checkpointSaves := 0
    halted := false }

/-- Lines 286-344: `learn_one_trial(timesteps, ...)` iterates the step
body for timesteps 1..timesteps. -/
noncomputable def learnOneTrial {O A E W : Type} (cfg : OCConfig O A E W)
    (timesteps : ℕ) (s0 : LoopState O E W) : LoopState O E W :=
  (List.range timesteps).foldl (fun s i => learnOneStep cfg (i + 1) s) s0

/-- C1: in `sac_update` each critic's bootstrap target is
`reward + (1 - terminal) * gamma * utility`, so a terminal transition's
target is exactly the reward; two transitions identical except for the
terminal flag have targets differing by exactly `gamma * utility`; and
in `learn_one_trial` an episode ending by reaching `max_ep_len` has its
stored terminal flag forced to false (line 304) in the transition the
step appends to the replay buffer. -/
theorem sac_update_terminal_zeroes_bootstrap (gamma : ℚ) (e : SacBatchElem)
    (O A E W : Type) (cfg : OCConfig O A E W) (t : ℕ) (s : LoopState O E W) :
    (Q1_u gamma e = e.reward + (1 - doneInd e.done) * gamma * utility1 e ∧
     Q2_u gamma e = e.reward + (1 - doneInd e.done) * gamma * utility2 e) ∧
    (e.done = true → Q1_u gamma e = e.reward ∧ Q2_u gamma e = e.reward) ∧
    (Q1_u gamma { e with done := false } - Q1_u gamma { e with done := true } =
        gamma * utility1 e ∧
     Q2_u gamma { e with done := false } - Q2_u gamma { e with done := true } =
        gamma * utility2 e) ∧
    (s.epLen + 1 = cfg.maxEpLen → (storedTransition cfg t s).done = false) ∧
    (s.halted = false →
      (learnOneStep cfg t s).replay = s.replay.push (storedTransition cfg t s)) := by
  refine ⟨⟨rfl, rfl⟩, ?_, ⟨?_, ?_⟩, ?_, ?_⟩
  · intro h
    constructor <;> simp [Q1_u, Q2_u, doneInd, h]
  · show e.reward + (1 - doneInd false) * gamma * utility1 e -
        (e.reward + (1 - doneInd true) * gamma * utility1 e) = gamma * utility1 e
    simp [doneInd]
  · show e.reward + (1 - doneInd false) * gamma * utility2 e -
        (e.reward + (1 - doneInd true) * gamma * utility2 e) = gamma * utility2 e
    simp [doneInd]
  · intro h
    simp [storedTransition, storedDone, h]
  · intro h
    simp only [learnOneStep, h]
    rw [if_neg Bool.false_ne_true]
    split <;> rfl

/-- A concrete toy configuration: a 1-step environment whose `step`
always reports terminal, with `max_ep_len = 1`. -/
def witCfg : OCConfig ℕ ℕ ℕ ℕ :=
  { envReset := fun e => ⟨0, e + 1⟩
    envStep := fun e a => ⟨e + a, 1, true, e⟩
    getOption := fun _ _ => 0
    getAction := fun o _ => o
    predictTermination := fun _ _ => false
    numOptions := 2
    maxEpLen := 1
    epsStart := 1
    epsEnd := 0
    epsDecay := 1
    batchSize := 1
    updateEvery := 1
    rewardThreshold := none
    sampleBatch := fun _ l => l
    sacStep := fun w _ => w
    trialNum := 1 }

/-- A concrete loop state about to take the episode's last step. -/
def witState : LoopState ℕ ℕ ℕ :=
  { envSt := 0
    epsilon := 1
    obs := 5
    epRet := 0
    epLen := 0
    currOpLen := 0
    optionTermination := false
    currentOption := 0
    episode := 0
    optionLengths := fun _ => []
    replay := ⟨10, []⟩
    weights := 0
    epRetLog := []
    epLenLog := []
    bestMeanReward := ⊥
    checkpointSaves := 0
    halted := false }

/-- A concrete terminal batch element. -/
def witElem : SacBatchElem :=
  { reward := 2, done := true, termProb := 0, nextQ1row := [3], nextQ2row := [4], option := 0 }

/-- Concrete instance of `sac_update_terminal_zeroes_bootstrap`:
terminal element `witElem`, and the loop state `witState` whose next
step reaches `max_ep_len = 1`. -/
theorem sac_update_terminal_zeroes_bootstrap_witness :
    (witElem.done = true ∧ witState.epLen + 1 = witCfg.maxEpLen ∧
      witState.halted = false) ∧
    ((Q1_u 1 witElem = witElem.reward + (1 - doneInd witElem.done) * 1 * utility1 witElem ∧
      Q2_u 1 witElem = witElem.reward + (1 - doneInd witElem.done) * 1 * utility2 witElem) ∧
     (witElem.done = true → Q1_u 1 witElem = witElem.reward ∧ Q2_u 1 witElem = witElem.reward) ∧
     (Q1_u 1 { witElem with done := false } - Q1_u 1 { witElem with done := true } =
        1 * utility1 witElem ∧
      Q2_u 1 { witElem with done := false } - Q2_u 1 { witElem with done := true } =
        1 * utility2 witElem) ∧
     (witState.epLen + 1 = witCfg.maxEpLen →
       (storedTransition witCfg 1 witState).done = false) ∧
     (witState.halted = false →
       (learnOneStep witCfg 1 witState).replay =
         witState.replay.push (storedTransition witCfg 1 witState))) :=
  ⟨⟨rfl, rfl, rfl⟩,
    sac_update_terminal_zeroes_bootstrap 1 witElem ℕ ℕ ℕ ℕ witCfg 1 witState⟩

/-- C10: in `learn_one_trial`, when an episode ends mid-trial the
observation returned by `env.reset()` is bound to the dead local
`state` (only the environment internals advance), while the loop
variable `obs` keeps the ended episode's final observation; the next
step's option selection, action and stored transition therefore all use
that final observation, and `option_termination` and `curr_op_len` are
not reset at the episode boundary. -/
theorem learn_one_trial_stale_obs_after_episode_end
    (O A E W : Type) (cfg : OCConfig O A E W) (t t2 : ℕ) (s : LoopState O E W)
    (hh : s.halted = false) (he : episodeEnds cfg t s = true) :
    (learnOneStep cfg t s).obs = (stepOut cfg t s).obs ∧
    (learnOneStep cfg t s).envSt = (cfg.envReset (stepOut cfg t s).env).env ∧
    (learnOneStep cfg t s).optionTermination =
      cfg.predictTermination (stepOut cfg t s).obs (selOption cfg t s) ∧
    (learnOneStep cfg t s).currOpLen =
      (if s.optionTermination then 0 else s.currOpLen) ∧
    (storedTransition cfg t2 (learnOneStep cfg t s)).obs = (stepOut cfg t s).obs ∧
    ((learnOneStep cfg t s).optionTermination = true →
      selOption cfg t2 (learnOneStep cfg t s) =
        cfg.getOption (stepOut cfg t s).obs (epsilonAt cfg t2 (learnOneStep cfg t s))) ∧
    chosenAction cfg t2 (learnOneStep cfg t s) =
      cfg.getAction (stepOut cfg t s).obs (selOption cfg t2 (learnOneStep cfg t s)) := by
  have hobs : (learnOneStep cfg t s).obs = (stepOut cfg t s).obs := by
    simp only [learnOneStep, hh]
    rw [if_neg Bool.false_ne_true, if_pos he]
  refine ⟨hobs, ?_, ?_, ?_, ?_, ?_, ?_⟩
  · simp only [learnOneStep, hh]
    rw [if_neg Bool.false_ne_true, if_pos he]
  · simp only [learnOneStep, hh]
    rw [if_neg Bool.false_ne_true, if_pos he]
  · simp only [learnOneStep, hh]
    rw [if_neg Bool.false_ne_true, if_pos he]
  · simp only [storedTransition]
    exact hobs
  · intro hterm
    simp only [selOption, hterm, if_true, hobs]
  · simp only [chosenAction, hobs]

/-- Concrete instance of `learn_one_trial_stale_obs_after_episode_end`
at `witCfg`/`witState`, whose first step ends the episode. -/
theorem learn_one_trial_stale_obs_witness :
    (witState.halted = false ∧ episodeEnds witCfg 1 witState = true) ∧
    ((learnOneStep witCfg 1 witState).obs = (stepOut witCfg 1 witState).obs ∧
     (learnOneStep witCfg 1 witState).envSt =
       (witCfg.envReset (stepOut witCfg 1 witState).env).env ∧
     (learnOneStep witCfg 1 witState).optionTermination =
       witCfg.predictTermination (stepOut witCfg 1 witState).obs
         (selOption witCfg 1 witState) ∧
     (learnOneStep witCfg 1 witState).currOpLen =
       (if witState.optionTermination then 0 else witState.currOpLen) ∧
     (storedTransition witCfg 2 (learnOneStep witCfg 1 witState)).obs =
       (stepOut witCfg 1 witState).obs ∧
     ((learnOneStep witCfg 1 witState).optionTermination = true →
       selOption witCfg 2 (learnOneStep witCfg 1 witState) =
         witCfg.getOption (stepOut witCfg 1 witState).obs
           (epsilonAt witCfg 2 (learnOneStep witCfg 1 witState))) ∧
     chosenAction witCfg 2 (learnOneStep witCfg 1 witState) =
       witCfg.getAction (stepOut witCfg 1 witState).obs
         (selOption witCfg 2 (learnOneStep witCfg 1 witState))) :=
  ⟨⟨rfl, by decide⟩,
    learn_one_trial_stale_obs_after_episode_end ℕ ℕ ℕ ℕ witCfg 1 2 witState rfl (by decide)⟩

/- ------------------------------------------------------------------
   `test` (lines 366-411) and `evaluate_agent` (lines 200-216).
   Both loop bodies call `self.get_action(state, 0)` (lines 212, 389,
   399) and `evaluate_agent` iterates `range(self.num_test_episodes)`
   (line 208).  The `OptionCritic` class defines no `get_action` method
   (the model's action sampler is `self.oc.get_action`), and `__init__`
   never assigns `self.num_test_episodes`, so both lookups raise
   `AttributeError` at run time.  Python attribute lookup on the
   instance is modelled against the class's method names and the
   instance attributes assigned in `__init__`.
   ------------------------------------------------------------------ -/

/-- The methods defined on the `OptionCritic` class (lines 20-366). -/
def optionCriticMethods : List String :=
  [ "__init__", "reinit_network", "update_target_network", "sac_update",
    "evaluate_agent", "save_weights", "load_weights", "update_epsilon",
    "learn_one_trial", "learn", "test" ]

/-- The instance attributes assigned in `__init__` (lines 59-103). -/
def optionCriticInitAttrs : List String :=
  [ "logger", "device", "env", "act_limit", "act_dim", "ngpu",
    "option_critic", "oc_kwargs", "oc", "oc_targ", "replay_size",
    "replay_buffer", "optimizer_class", "lr", "optimizer", "gamma",
    "eps_start", "eps_end", "eps_decay", "batch_size", "update_every",
    "termination_reg", "max_ep_len", "polyak", "entropy_reg",
    "save_freq", "save_dir", "best_mean_reward" ]

/-- Python attribute lookup `self.<name>` on an `OptionCritic`
instance: succeeds iff the name is a class method or an attribute
assigned in `__init__`, otherwise raises `AttributeError`. -/
def resolveAttr (name : String) : Except String Unit :=
  if optionCriticMethods.contains name || optionCriticInitAttrs.contains name then
    Except.ok ()
  else
    Except.error ("AttributeError: " ++ name)

/-- `test` (lines 366-411): with `timesteps = None` the `while` loop
runs unless `ep_len` already equals `max_ep_len` (i.e. `max_ep_len = 0`);
with `timesteps = n` the `for` loop runs unless `n = 0`.  The first
loop iteration resolves `self.get_action`; once that lookup raises, the
rest of the body is unreachable and is not modelled further.  When no
iteration runs, the accumulated `(ep_ret, ep_len)` is `(0, 0)`. -/
def test (maxEpLen : ℕ) (timesteps : Option ℕ) : Except String (ℚ × ℕ) :=
  match timesteps with
  | some n =>
      if n = 0 then Except.ok (0, 0)
      else (resolveAttr "get_action").map fun _ => (0, 0)
  | none =>
      if maxEpLen = 0 then Except.ok (0, 0)
      else (resolveAttr "get_action").map fun _ => (0, 0)

/-- `evaluate_agent` (lines 200-216): line 208 resolves
`self.num_test_episodes` before any episode runs; once that lookup
raises, the rest of the body is unreachable and is not modelled
further. -/
def evaluate_agent : Except String Unit :=
  (resolveAttr "num_test_episodes").map fun _ => ()

/-- C9 (failing evaluation): calling `test` with the default
`timesteps=None` on any environment with `max_ep_len ≥ 1`, or with any
positive step budget, raises `AttributeError: get_action` before any
return is accumulated, and `evaluate_agent` raises
`AttributeError: num_test_episodes`; neither runs to completion as the
claim describes. -/
theorem test_mode_raises_attribute_error :
    test 1000 none = Except.error "AttributeError: get_action" ∧
    test 1000 (some 5) = Except.error "AttributeError: get_action" ∧
    evaluate_agent = Except.error "AttributeError: num_test_episodes" := by
  refine ⟨?_, ?_, ?_⟩ <;> rfl
